import Mathlib

/-!
Verification development for the resume-generator pipeline
(src/cv_generator/app.py). The Python source is shallowly embedded:
pure steps become Lean functions, the mutable `data` dict and the files
written under the build directory become explicit association lists that
are threaded through the pipeline, and the external collaborators
(PyMuPDF, the Gemini client, Jinja2, pdflatex via subprocess) are
modelled at the contract level actually exercised by the code.
-/

/-- Duplicated key-update semantics of a Python dict assignment
`d[k] = v`: replace the value of the first (unique) occurrence of the
key, or append the binding when the key is absent. Used both for the
`data` dict mutated by compile_latex and for the files the pipeline
writes (path to content, `open(path, "w")` overwrites). -/
def setKey {β : Type} : List (String × β) → String → β → List (String × β)
  | [], k, v => [(k, v)]
  | (k', v') :: rest, k, v =>
      if k' = k then (k, v) :: rest else (k', v') :: setKey rest k v

/-- Key lookup in an association list, Python `d[k]` / `os.path.exists`. -/
def getKey {β : Type} : List (String × β) → String → Option β
  | [], _ => none
  | (k', v) :: rest, k => if k' = k then some v else getKey rest k

/-- JSON values as produced by `json.loads` (app.py line 80): the
structured record handed from the AI-structuring stage to the renderer. -/
inductive Json where
  | null : Json
  | bool (b : Bool) : Json
  | num (n : Int) : Json
  | str (s : String) : Json
  | arr (elems : List Json) : Json
  | obj (fields : List (String × Json)) : Json

/-- A Python dict with string keys, e.g. the structured resume record. -/
def Dict : Type := List (String × Json)

/-- The build-directory file system slice touched by the pipeline:
relative path to text content. -/
def FS : Type := List (String × String)

/-- JSON whitespace, as skipped by the `json` module between tokens. -/
def isJsonWs (c : Char) : Bool :=
  c = ' ' || c = '\t' || c = '\n' || c = '\r'

/-- Skip inter-token whitespace. -/
def skipWs (cs : List Char) : List Char := cs.dropWhile isJsonWs

/-- ASCII decimal digit test. -/
def isDigitChar (c : Char) : Bool :=
  48 ≤ c.toNat && c.toNat ≤ 57

/-- Value of a digit string, most significant digit first (code point
48 is the digit zero). -/
def digitsToNat (ds : List Char) : Nat :=
  ds.foldl (fun acc d => 10 * acc + (d.toNat - 48)) 0

/-- Value of a hexadecimal digit character, if it is one, by code
point: 48-57 are the digits, 97-102 lower-case a-f, 65-70 upper-case. -/
def hexVal (c : Char) : Option Nat :=
  let n := c.toNat
  if 48 ≤ n && n ≤ 57 then some (n - 48)
  else if 97 ≤ n && n ≤ 102 then some (n - 87)
  else if 65 ≤ n && n ≤ 70 then some (n - 55)
  else none

/-- Single-character JSON string escapes: quote, backslash and slash
stand for themselves, the letters n t r b f for their control
characters. -/
def escChar (e : Char) : Option Char :=
  if e = '"' || e = '\\' || e = '/' then some e
  else if e = 'n' then some '\n'
  else if e = 't' then some '\t'
  else if e = 'r' then some '\r'
  else if e = 'b' then some (Char.ofNat 8)
  else if e = 'f' then some (Char.ofNat 12)
  else none

/-- Body of a JSON string after the opening quote: the decoded
characters and the input remaining after the closing quote. -/
def parseStringBody : List Char → Option (List Char × List Char)
  | [] => none
  | '"' :: cs => some ([], cs)
  | '\\' :: 'u' :: a :: b :: c :: d :: cs => do
      let ha ← hexVal a
      let hb ← hexVal b
      let hc ← hexVal c
      let hd ← hexVal d
      let (body, rest) ← parseStringBody cs
      some (Char.ofNat (((ha * 16 + hb) * 16 + hc) * 16 + hd) :: body, rest)
  | '\\' :: e :: cs => do
      let c ← escChar e
      let (body, rest) ← parseStringBody cs
      some (c :: body, rest)
  | c :: cs => do
      let (body, rest) ← parseStringBody cs
      some (c :: body, rest)

/-- Opening brace character (written numerically). -/
def lbrace : Char := Char.ofNat 123

/-- Closing brace character (written numerically). -/
def rbrace : Char := Char.ofNat 125

/-- A JSON integer numeral with optional leading minus. The pipeline's
structured records carry only strings, arrays and objects, so the
fractional and exponent numeral forms are left unmodelled (rejected). -/
def parseNumber (cs : List Char) : Option (Json × List Char) :=
  let p := match cs with
    | '-' :: rest => (true, rest)
    | _ => (false, cs)
  let ds := p.2.takeWhile isDigitChar
  let rest := p.2.dropWhile isDigitChar
  if ds.isEmpty then none
  else
    match rest with
    | '.' :: _ => none
    | 'e' :: _ => none
    | 'E' :: _ => none
    | _ =>
      let n : Int := Int.ofNat (digitsToNat ds)
      some (.num (if p.1 then -n else n), rest)

mutual

/-- Recursive-descent JSON value parser (fuel-indexed), modelling the
acceptance behaviour of `json.loads` on the record shapes the pipeline
exchanges. Returns the value and the unconsumed input. -/
def parseVal : Nat → List Char → Option (Json × List Char)
  | 0, _ => none
  | fuel + 1, cs =>
    match skipWs cs with
    | [] => none
    | c :: cs1 =>
      if c = '"' then
        match parseStringBody cs1 with
        | some (body, rest) => some (.str (String.mk body), rest)
        | none => none
      else if c = lbrace then
        match skipWs cs1 with
        | c2 :: rest2 =>
          if c2 = rbrace then some (.obj [], rest2)
          else
            match parseMembers fuel cs1 with
            | some (ms, rest) => some (.obj ms, rest)
            | none => none
        | [] => none
      else if c = '[' then
        match skipWs cs1 with
        | c2 :: rest2 =>
          if c2 = ']' then some (.arr [], rest2)
          else
            match parseElems fuel cs1 with
            | some (vs, rest) => some (.arr vs, rest)
            | none => none
        | [] => none
      else if c = 't' then
        match cs1 with
        | 'r' :: 'u' :: 'e' :: rest => some (.bool true, rest)
        | _ => none
      else if c = 'f' then
        match cs1 with
        | 'a' :: 'l' :: 's' :: 'e' :: rest => some (.bool false, rest)
        | _ => none
      else if c = 'n' then
        match cs1 with
        | 'u' :: 'l' :: 'l' :: rest => some (.null, rest)
        | _ => none
      else if c = '-' || isDigitChar c then parseNumber (c :: cs1)
      else none

/-- One or more comma-separated array elements followed by `]`. -/
def parseElems : Nat → List Char → Option (List Json × List Char)
  | 0, _ => none
  | fuel + 1, cs =>
    match parseVal fuel cs with
    | none => none
    | some (v, cs2) =>
      match skipWs cs2 with
      | [] => none
      | c :: rest =>
        if c = ',' then
          match parseElems fuel rest with
          | some (vs, rest2) => some (v :: vs, rest2)
          | none => none
        else if c = ']' then some ([v], rest)
        else none

/-- One or more comma-separated `"key": value` members followed by the
closing brace. -/
def parseMembers : Nat → List Char → Option (List (String × Json) × List Char)
  | 0, _ => none
  | fuel + 1, cs =>
    match skipWs cs with
    | [] => none
    | c :: cs1 =>
      if c = '"' then
        match parseStringBody cs1 with
        | some (keyChars, cs2) =>
          match skipWs cs2 with
          | [] => none
          | c2 :: cs3 =>
            if c2 = ':' then
              match parseVal fuel cs3 with
              | some (v, cs4) =>
                match skipWs cs4 with
                | [] => none
                | c3 :: cs5 =>
                  if c3 = ',' then
                    match parseMembers fuel cs5 with
                    | some (ms, rest) => some ((String.mk keyChars, v) :: ms, rest)
                    | none => none
                  else if c3 = rbrace then some ([(String.mk keyChars, v)], cs5)
                  else none
              | none => none
            else none
        | none => none
      else none

end

/-- Top-level `json.loads`: parse one value and require that only
whitespace remains; any failure models the raised JSONDecodeError. -/
def jsonLoads (s : String) : Option Json :=
  match parseVal (s.length + 8) s.data with
  | some (v, rest) => if (skipWs rest).isEmpty then some v else none
  | none => none

/-- Embeds `get_ai_data` (app.py lines 79-80) at the response boundary:
the service response text is passed directly to `json.loads` with no
further processing; `none` models the JSONDecodeError raised on a
payload that is not valid JSON. No fence normalization is performed
anywhere in the function. -/
def get_ai_data (responseText : String) : Option Json :=
  jsonLoads responseText

/-- Whitespace for surrounding-trim purposes (Python `str.strip`). -/
def isStripWs (c : Char) : Bool :=
  c = ' ' || c = '\t' || c = '\n' || c = '\r' ||
  c = Char.ofNat 11 || c = Char.ofNat 12

/-- Drop leading and trailing whitespace from a character list. -/
def trimChars (cs : List Char) : List Char :=
  ((cs.dropWhile isStripWs).reverse.dropWhile isStripWs).reverse

/-- Split a character list into its newline-separated lines. -/
def splitLines : List Char → List (List Char)
  | [] => [[]]
  | '\n' :: cs => [] :: splitLines cs
  | c :: cs =>
    match splitLines cs with
    | l :: ls => (c :: l) :: ls
    | [] => [[c]]

/-- Join lines back with newline separators. -/
def joinLines : List (List Char) → List Char
  | [] => []
  | [l] => l
  | l :: m :: ls => l ++ '\n' :: joinLines (m :: ls)

/-- Whether a line is a markdown fence line: after trimming it starts
with a triple backtick, with or without a trailing language tag. -/
def isFenceLine (cs : List Char) : Bool :=
  match trimChars cs with
  | '`' :: '`' :: '`' :: _ => true
  | _ => false

/-- Modelled from the spec: the fence normalization that section 4.2
requires of the StructuringClient and that is absent from the source --
strip a leading fence line (with or without a language tag) and a
trailing fence line, then trim surrounding whitespace. -/
def stripFences (s : String) : String :=
  let ls := splitLines s.data
  let ls1 :=
    match ls with
    | first :: rest => if isFenceLine first then rest else ls
    | [] => ls
  let ls2 :=
    match ls1.reverse with
    | last :: rest => if isFenceLine last then rest.reverse else ls1
    | [] => ls1
  String.mk (trimChars (joinLines ls2))

mutual

/-- Python `repr` of a structured value, used when a non-string field
value is interpolated into the rendered source. -/
def pyRepr : Json → String
  | .null => "None"
  | .bool b => if b then "True" else "False"
  | .num n => toString n
  | .str s => "\x27" ++ s ++ "\x27"
  | .arr xs => "[" ++ pyReprElems xs ++ "]"
  | .obj fs => "\x7b" ++ pyReprFields fs ++ "\x7d"

/-- Comma-separated `repr` of list elements. -/
def pyReprElems : List Json → String
  | [] => ""
  | [x] => pyRepr x
  | x :: y :: xs => pyRepr x ++ ", " ++ pyReprElems (y :: xs)

/-- Comma-separated `repr` of dict items. -/
def pyReprFields : List (String × Json) → String
  | [] => ""
  | [(k, v)] => "\x27" ++ k ++ "\x27: " ++ pyRepr v
  | (k, v) :: m :: fs =>
      "\x27" ++ k ++ "\x27: " ++ pyRepr v ++ ", " ++ pyReprFields (m :: fs)

end

/-- Python `str` of a value, the text Jinja2 writes at a substitution
site. -/
def pyStr : Json → String
  | .str s => s
  | v => pyRepr v

/-- The Jinja2 environment options relevant to the renderer contract. -/
structure JinjaEnv where
  trim_blocks : Bool
  autoescape : Bool
  strict_undefined : Bool

/-- Embeds the `Environment(...)` constructed at app.py lines 18-30:
`trim_blocks=True`, `autoescape=False`, and no `undefined=` argument,
so Jinja2's default (non-strict) `Undefined` is in force: printing an
undefined variable yields empty text instead of raising. -/
def env : JinjaEnv :=
  { trim_blocks := true, autoescape := false, strict_undefined := false }

/-- A compiled template as a sequence of literal segments and variable
substitution sites (the `\VAR` delimiters of the environment). -/
inductive Tok where
  | lit (s : String) : Tok
  | var (name : String) : Tok

/-- Rendering of one template token against a context dict. Under a
strict-undefined environment a missing variable raises UndefinedError
(`Except.error`); under the default environment it renders as empty
text. -/
def renderTok (strict : Bool) (ctx : Dict) : Tok → Except String String
  | .lit s => .ok s
  | .var n =>
    match getKey ctx n with
    | some v => .ok (pyStr v)
    | none =>
      if strict then .error ("UndefinedError: " ++ n ++ " is undefined")
      else .ok ""

/-- Rendering of a whole template: concatenation of the rendered
tokens, propagating any UndefinedError. -/
def renderTemplate (strict : Bool) (ctx : Dict) : List Tok → Except String String
  | [] => .ok ""
  | t :: ts =>
    match renderTok strict ctx t with
    | .error e => .error e
    | .ok s =>
      match renderTemplate strict ctx ts with
      | .error e => .error e
      | .ok r => .ok (s ++ r)

/-- Total rendering under the source environment (whose undefined
policy is the non-strict default, `env.strict_undefined = false`):
missing variables render as empty text, so no error can occur. -/
def renderTemplateD (ctx : Dict) : List Tok → String
  | [] => ""
  | t :: ts =>
    (match renderTok false ctx t with
     | .ok s => s
     | .error _ => "") ++ renderTemplateD ctx ts

/-- Embeds `extract_text_from_pdf` (app.py lines 33-38): starting from
the empty string, append each page's text in page order. A page is
modelled by the text `page.get_text()` yields for it. -/
def extract_text_from_pdf (pages : List String) : String :=
  pages.foldl (fun text page => text ++ page) ""

/-- Embeds the configuration constant at app.py line 11. -/
def TEMPLATE_FILE : String := "cv_template.tex"

/-- Embeds the configuration constant at app.py line 12. -/
def BUILD_DIR : String := "build"

/-- The fixed rendered-source path `os.path.join(BUILD_DIR, "resume.tex")`
(app.py line 93). -/
def tex_path : String := BUILD_DIR ++ "/resume.tex"

/-- The fixed artifact path `os.path.join(BUILD_DIR, "resume.pdf")`
(app.py line 105). -/
def pdf_path : String := BUILD_DIR ++ "/resume.pdf"

/-- The fixed saved-photo path `os.path.join(BUILD_DIR, "user_photo.jpg")`
(app.py line 140). -/
def user_photo_path : String := BUILD_DIR ++ "/user_photo.jpg"

/-- Embeds the dict mutation at app.py line 86:
`data['photo_path'] = photo_filename`. -/
def compile_latex_data_update (data : Dict) (photo_filename : String) : Dict :=
  setKey data "photo_path" (Json.str photo_filename)

/-- Embeds steps 1-3 of `compile_latex` (app.py lines 86-95): mutate the
record's `photo_path`, render the template against the mutated record,
and overwrite `build/resume.tex` with the rendered text. -/
def render_and_save (tmpl : List Tok) (photo_filename : String)
    (st : Dict × FS) : Dict × FS :=
  let data1 := compile_latex_data_update st.1 photo_filename
  let latex_content := renderTemplateD data1 tmpl
  (data1, setKey st.2 tex_path latex_content)

/-- Behaviour of the external `pdflatex` invocation for one run: the
executable may be missing from the environment, or it runs and yields
an exit status, does or does not produce `build/resume.pdf`, and writes
some terminal output (which the source does not capture). -/
inductive CompilerEnv where
  | toolMissing : CompilerEnv
  | runs (exitCode : Nat) (artifactProduced : Bool) (output : String) : CompilerEnv

/-- Result of a Python call: a normal return value, or an uncaught
exception propagating to the caller (named by its Python class). -/
inductive PyResult (α : Type) where
  | ok (a : α) : PyResult α
  | raised (excName : String) : PyResult α
deriving DecidableEq

/-- Everything observable about one `compile_latex` call: the mutated
record, the build-directory contents, the call's return or raised
exception, and the `st.error` text displayed (empty when none was). -/
structure CompileLatexResult where
  data : Dict
  fs : FS
  ret : PyResult (Option String)
  errorMsg : String

/-- Embeds `compile_latex` (app.py lines 82-105): render and save, then
run `subprocess.run(["pdflatex", ...], check=True)`. Only
`CalledProcessError` (nonzero exit) is caught -- it displays the fixed
message and returns `None`; a missing executable raises
`FileNotFoundError`, which no handler catches; a zero exit returns the
artifact path without checking that the file exists. -/
def compile_latex (tmpl : List Tok) (cenv : CompilerEnv) (data : Dict)
    (photo_filename : String) (fs : FS) : CompileLatexResult :=
  let st1 := render_and_save tmpl photo_filename (data, fs)
  match cenv with
  | .toolMissing =>
      { data := st1.1, fs := st1.2, ret := .raised "FileNotFoundError",
        errorMsg := "" }
  | .runs exitCode _ _ =>
      if exitCode = 0 then
        { data := st1.1, fs := st1.2, ret := .ok (some pdf_path),
          errorMsg := "" }
      else
        { data := st1.1, fs := st1.2, ret := .ok none,
          errorMsg := "LaTeX Compilation Failed! Check the logs." }

/-- Modelled from the spec: the bounded diagnostic tail (the final
portion, about 1000 characters, of the captured compiler output) that
section 4.4 says a compile failure should surface. The source captures
no output, so this exists only as the spec's point of comparison. -/
def lastChars (n : Nat) (s : String) : String :=
  String.mk (s.data.drop (s.data.length - n))

/-- Whether `build/resume.pdf` exists after the compiler ran, for a
fresh build directory: exactly when the tool ran and produced it. -/
def artifact_exists (cenv : CompilerEnv) : Bool :=
  match cenv with
  | .toolMissing => false
  | .runs _ produced _ => produced

/-- Embeds the reachability condition of the generate flow (app.py line
125): `if uploaded_cv and uploaded_photo and api_key:` under Python
truthiness -- an upload that was not made and an empty key string are
falsy, and each disables generation. -/
def generation_available (cvUploaded photoUploaded : Bool)
    (api_key : String) : Bool :=
  cvUploaded && photoUploaded && !(api_key == "")

/-- What the UI run ends with after the compile stage (app.py lines
149-161): a download button for the artifact, an error having been
shown, or nothing at all (the `if` at line 149 has no `else`). -/
inductive UIOutcome where
  | download (path : String) : UIOutcome
  | errorShown (msg : String) : UIOutcome
  | silent : UIOutcome

/-- Outcome of one generate-button run: aborted before the compile
stage (st.stop or an uncaught exception), or it reached the post-
compile UI with the given outcome. -/
inductive RunOutcome where
  | aborted (msg : String) : RunOutcome
  | finished (ui : UIOutcome) : RunOutcome

/-- Observable effects of one generate-button run. -/
structure OrchestrationResult where
  fs : FS
  compileAttempted : Bool
  outcome : RunOutcome

/-- Embeds the run body (app.py lines 127-161) after text extraction:
parse the service response (on failure `st.error` then `st.stop`, so
the run aborts with the build directory untouched); save the photo to
`build/user_photo.jpg`; call `compile_latex` with the fixed filename;
then show the download button only when a path was returned and the
artifact file exists -- with no branch for the remaining case. A
response that parses to a non-dict value makes the subscript assignment
in `compile_latex` raise TypeError before any subprocess runs. -/
def run_generation (responseText photoBytes : String) (tmpl : List Tok)
    (cenv : CompilerEnv) (fs : FS) : OrchestrationResult :=
  match get_ai_data responseText with
  | none => { fs := fs, compileAttempted := false, outcome := .aborted "AI Error" }
  | some cv_data =>
    match cv_data with
    | .obj fields =>
      let fs1 := setKey fs user_photo_path photoBytes
      let r := compile_latex tmpl cenv fields "user_photo.jpg" fs1
      match r.ret with
      | .raised e =>
          { fs := r.fs, compileAttempted := true, outcome := .aborted e }
      | .ok none =>
          { fs := r.fs, compileAttempted := true,
            outcome := .finished (.errorShown r.errorMsg) }
      | .ok (some p) =>
          { fs := r.fs, compileAttempted := true,
            outcome := .finished
              (if artifact_exists cenv then .download p else .silent) }
    | _ =>
      { fs := setKey fs user_photo_path photoBytes, compileAttempted := false,
        outcome := .aborted "TypeError" }

theorem getKey_setKey_same {β : Type} (d : List (String × β)) (k : String)
    (v : β) : getKey (setKey d k v) k = some v := by
  induction d with
  | nil => simp [setKey, getKey]
  | cons hd tl ih =>
    obtain ⟨k', v'⟩ := hd
    by_cases hk : k' = k
    · simp [setKey, hk, getKey]
    · simp [setKey, hk, getKey, ih]

theorem getKey_setKey_ne {β : Type} (d : List (String × β)) (k k' : String)
    (v : β) (h : k' ≠ k) : getKey (setKey d k v) k' = getKey d k' := by
  have h' : ¬k = k' := fun he => h he.symm
  induction d with
  | nil => simp [setKey, getKey, h']
  | cons hd tl ih =>
    obtain ⟨k0, v0⟩ := hd
    by_cases hk : k0 = k
    · subst hk
      simp only [setKey, if_pos rfl, getKey]
      rw [if_neg h', if_neg h']
    · simp [setKey, hk, getKey, ih]

theorem setKey_setKey_same {β : Type} (d : List (String × β)) (k : String)
    (v w : β) : setKey (setKey d k v) k w = setKey d k w := by
  induction d with
  | nil => simp [setKey]
  | cons hd tl ih =>
    obtain ⟨k0, v0⟩ := hd
    by_cases hk : k0 = k
    · simp [setKey, hk]
    · simp [setKey, hk, ih]

theorem renderTemplate_default_eq (ctx : Dict) (tmpl : List Tok) :
    renderTemplate false ctx tmpl = Except.ok (renderTemplateD ctx tmpl) := by
  induction tmpl with
  | nil => rfl
  | cons t ts ih =>
    cases t with
    | lit s => simp [renderTemplate, renderTok, renderTemplateD, ih]
    | var n =>
      cases hk : getKey ctx n with
      | none => simp [renderTemplate, renderTok, renderTemplateD, hk, ih]
      | some v => simp [renderTemplate, renderTok, renderTemplateD, hk, ih]

theorem foldl_append_length (pages : List String) (acc : String) :
    (List.foldl (fun text page => text ++ page) acc pages).length
      = acc.length + (pages.map String.length).sum := by
  induction pages generalizing acc with
  | nil => simp
  | cons p ps ih =>
    simp only [List.foldl, List.map, List.sum_cons, ih, String.length_append]
    omega

/-- C1 (counterexample): for the fence-wrapped payload
` ```json ... ``` ` the StructuringClient as implemented fails to
parse (get_ai_data yields the JSONDecodeError outcome), while the
spec-modelled normalization followed by parsing yields the structured
record -- so the client's result is not the normalize-then-parse
result, refuting the claim at this input. -/
theorem get_ai_data_fenced_cex :
    get_ai_data "```json\n\x7b\"name\": \"Jane\"\x7d\n```" = none ∧
    jsonLoads (stripFences "```json\n\x7b\"name\": \"Jane\"\x7d\n```")
      = some (Json.obj [("name", Json.str "Jane")]) ∧
    get_ai_data "```json\n\x7b\"name\": \"Jane\"\x7d\n```"
      ≠ jsonLoads (stripFences "```json\n\x7b\"name\": \"Jane\"\x7d\n```") :=
  ⟨rfl, rfl, fun h => Option.noConfusion h⟩

/-- C1 (amended): the StructuringClient applies no fence normalization:
it passes the response text straight to the JSON parser, so every
payload that begins with a fence marker fails to parse (and the run
aborts), while an unfenced payload parses to its structured record. -/
theorem get_ai_data_no_fence_normalization (rest : String) :
    get_ai_data ("```" ++ rest) = none ∧
    get_ai_data "\x7b\"name\": \"Jane\"\x7d"
      = some (Json.obj [("name", Json.str "Jane")]) :=
  ⟨rfl, rfl⟩

/-- C2 (counterexample): on a nonzero compiler exit the pipeline
displays a fixed message and returns None; at this input the displayed
diagnostic is not the bounded tail of the compiler output (which the
source never captures), refuting the parenthetical of the claim. -/
theorem compile_latex_diag_not_tail_cex :
    (compile_latex [] (.runs 1 false "! Undefined control sequence.")
        [] "user_photo.jpg" []).ret = PyResult.ok none ∧
    (compile_latex [] (.runs 1 false "! Undefined control sequence.")
        [] "user_photo.jpg" []).errorMsg
      = "LaTeX Compilation Failed! Check the logs." ∧
    (compile_latex [] (.runs 1 false "! Undefined control sequence.")
        [] "user_photo.jpg" []).errorMsg
      ≠ lastChars 1000 "! Undefined control sequence." :=
  ⟨rfl, rfl, by decide⟩

/-- C2 (amended): for every rendered source the compilation tool
rejects with a nonzero exit status, compile_latex returns None -- never
an artifact path -- and displays a fixed non-empty diagnostic message
(the compiler output is not captured and the message is not derived
from it). -/
theorem compile_latex_nonzero_exit_fails (tmpl : List Tok) (data : Dict)
    (p : String) (fs : FS) (code : Nat) (produced : Bool) (out : String)
    (h : code ≠ 0) :
    (compile_latex tmpl (.runs code produced out) data p fs).ret
      = PyResult.ok none ∧
    (compile_latex tmpl (.runs code produced out) data p fs).errorMsg ≠ "" := by
  dsimp only [compile_latex]
  rw [if_neg h]
  exact ⟨rfl, show "LaTeX Compilation Failed! Check the logs." ≠ "" by decide⟩

/-- Witness for C2 (amended) at exit code 1. -/
theorem compile_latex_nonzero_exit_fails_witness :
    (compile_latex [] (.runs 1 false "") [] "user_photo.jpg" []).ret
      = PyResult.ok none ∧
    (compile_latex [] (.runs 1 false "") [] "user_photo.jpg" []).errorMsg ≠ "" :=
  compile_latex_nonzero_exit_fails [] [] "user_photo.jpg" [] 1 false ""
    (by decide)

/-- C3: a missing compiler executable surfaces as an uncaught
FileNotFoundError (no handler catches it), a failure distinct and
distinguishable from the caught nonzero-exit failure, which returns
None after displaying the compilation-failed message. -/
theorem compile_latex_missing_tool_distinct (tmpl : List Tok) (data : Dict)
    (p : String) (fs : FS) (code : Nat) (produced : Bool) (out : String)
    (h : code ≠ 0) :
    (compile_latex tmpl .toolMissing data p fs).ret
      = PyResult.raised "FileNotFoundError" ∧
    (compile_latex tmpl (.runs code produced out) data p fs).ret
      = PyResult.ok none ∧
    (compile_latex tmpl .toolMissing data p fs).ret
      ≠ (compile_latex tmpl (.runs code produced out) data p fs).ret := by
  dsimp only [compile_latex]
  rw [if_neg h]
  exact ⟨rfl, rfl, fun he => PyResult.noConfusion he⟩

/-- Witness for C3 at exit code 1. -/
theorem compile_latex_missing_tool_distinct_witness :
    (compile_latex [] .toolMissing [] "user_photo.jpg" []).ret
      = PyResult.raised "FileNotFoundError" ∧
    (compile_latex [] (.runs 1 false "boom") [] "user_photo.jpg" []).ret
      = PyResult.ok none ∧
    (compile_latex [] .toolMissing [] "user_photo.jpg" []).ret
      ≠ (compile_latex [] (.runs 1 false "boom") [] "user_photo.jpg" []).ret :=
  compile_latex_missing_tool_distinct [] [] "user_photo.jpg" [] 1 false "boom"
    (by decide)

/-- C4 (counterexample): with a CV and an API key but no photo
supplied, the generate flow is unreachable, so no RenderContext is
built at all; moreover the only injection the pipeline ever performs
sets photo_path to the photo filename and never touches show_photo --
refuting the claimed injection of show_photo = false / photo_path = "". -/
theorem no_photo_no_render_context_cex :
    generation_available true false "key" = false ∧
    getKey (compile_latex_data_update [("name", Json.str "Jane")]
        "user_photo.jpg") "show_photo" = none ∧
    getKey (compile_latex_data_update [("name", Json.str "Jane")]
        "user_photo.jpg") "photo_path" = some (Json.str "user_photo.jpg") :=
  ⟨rfl, rfl, rfl⟩

/-- C4 (amended): when no photo asset is supplied the orchestrator does
not render at all -- the generate flow requires a CV, a photo and an
API key; the orchestrator never injects a show_photo field (the key is
untouched by the injection), and when it does run it injects
photo_path = the fixed photo filename into the record before
rendering. -/
theorem no_photo_generation_gated (cv : Bool) (key : String) (data : Dict)
    (f : String) :
    generation_available cv false key = false ∧
    getKey (compile_latex_data_update data f) "photo_path"
      = some (Json.str f) ∧
    getKey (compile_latex_data_update data f) "show_photo"
      = getKey data "show_photo" := by
  refine ⟨by simp [generation_available], getKey_setKey_same data _ _, ?_⟩
  exact getKey_setKey_ne data _ _ _ (by decide)

/-- C5: under the source environment (default, non-strict undefined)
rendering any template against any record succeeds -- it never
throws -- and the substitution site of a field missing from the record
renders as empty content. -/
theorem renderer_missing_field_empty (ctx : Dict) (tmpl : List Tok)
    (field : String) (h : getKey ctx field = none) :
    renderTemplate env.strict_undefined ctx tmpl
      = Except.ok (renderTemplateD ctx tmpl) ∧
    renderTok env.strict_undefined ctx (Tok.var field) = Except.ok "" := by
  refine ⟨renderTemplate_default_eq ctx tmpl, ?_⟩
  show renderTok false ctx (Tok.var field) = Except.ok ""
  simp [renderTok, h]

/-- Witness for C5 at a record missing its title field. -/
theorem renderer_missing_field_empty_witness :
    getKey [("name", Json.str "Jane")] "title" = none ∧
    (renderTemplate env.strict_undefined [("name", Json.str "Jane")]
        [Tok.lit "X", Tok.var "title"]
      = Except.ok (renderTemplateD [("name", Json.str "Jane")]
          [Tok.lit "X", Tok.var "title"]) ∧
     renderTok env.strict_undefined [("name", Json.str "Jane")]
        (Tok.var "title") = Except.ok "") :=
  ⟨rfl, renderer_missing_field_empty [("name", Json.str "Jane")]
    [Tok.lit "X", Tok.var "title"] "title" rfl⟩

/-- C6: extraction is the in-order concatenation of the page texts with
nothing inserted between pages, so its length is the sum of the
individual per-page text lengths. -/
theorem extract_text_concat (pages : List String) :
    extract_text_from_pdf pages = String.join pages ∧
    (extract_text_from_pdf pages).length
      = (pages.map String.length).sum := by
  refine ⟨rfl, ?_⟩
  simpa [extract_text_from_pdf] using foldl_append_length pages ""

/-- C7: rendering the same RenderContext twice against the same
template is idempotent -- the record and the saved source file are
unchanged by the second pass, and the text rendered on the second pass
is byte-identical to the first. -/
theorem render_and_save_idempotent (tmpl : List Tok) (p : String)
    (st : Dict × FS) :
    render_and_save tmpl p (render_and_save tmpl p st)
      = render_and_save tmpl p st ∧
    renderTemplateD (compile_latex_data_update
        (render_and_save tmpl p st).1 p) tmpl
      = renderTemplateD (compile_latex_data_update st.1 p) tmpl := by
  have hd : compile_latex_data_update (compile_latex_data_update st.1 p) p
      = compile_latex_data_update st.1 p :=
    setKey_setKey_same st.1 "photo_path" (Json.str p) (Json.str p)
  constructor
  · dsimp only [render_and_save]
    rw [hd, setKey_setKey_same]
  · dsimp only [render_and_save]
    rw [hd]

/-- C8: when the structuring response does not parse, the run aborts
with the reported AI error before any later stage: the build directory
is untouched (no photo persisted, no source rendered) and no
compilation is attempted. -/
theorem structuring_failure_aborts_run (responseText photoBytes : String)
    (tmpl : List Tok) (cenv : CompilerEnv) (fs : FS)
    (h : get_ai_data responseText = none) :
    run_generation responseText photoBytes tmpl cenv fs
      = { fs := fs, compileAttempted := false,
          outcome := .aborted "AI Error" } := by
  dsimp only [run_generation]
  rw [h]

/-- Witness for C8 at an unparseable response payload. -/
theorem structuring_failure_aborts_run_witness :
    get_ai_data "not json" = none ∧
    run_generation "not json" "PHOTO" [] (.runs 0 true "") []
      = { fs := [], compileAttempted := false,
          outcome := .aborted "AI Error" } :=
  ⟨rfl, structuring_failure_aborts_run "not json" "PHOTO" []
    (.runs 0 true "") [] rfl⟩

/-- C9 (counterexample): when the compiler exits zero without producing
the artifact, the run ends silently -- no download is offered but no
explicit failure is reported either -- refuting the claim that the
outcome is always a verified path or an explicit failure. -/
theorem zero_exit_no_artifact_silent_cex :
    (run_generation "\x7b\"name\": \"Jane\"\x7d" "PHOTO" []
        (.runs 0 false "") []).outcome
      = RunOutcome.finished UIOutcome.silent := rfl

/-- C9 (amended): the caller never receives a path to a non-existent
artifact -- a download is offered only when the artifact exists on
disk -- but the outcome is not always path-or-explicit-failure: a zero
exit without an artifact ends the run silently. -/
theorem download_implies_artifact (responseText photoBytes : String)
    (tmpl : List Tok) (cenv : CompilerEnv) (fs : FS) (p : String)
    (h : (run_generation responseText photoBytes tmpl cenv fs).outcome
        = RunOutcome.finished (UIOutcome.download p)) :
    artifact_exists cenv = true := by
  dsimp only [run_generation] at h
  cases hj : get_ai_data responseText with
  | none => rw [hj] at h; simp at h
  | some v =>
    rw [hj] at h
    cases v with
    | obj fields =>
      cases cenv with
      | toolMissing => simp [compile_latex] at h
      | runs code produced out =>
        by_cases hc : code = 0
        · subst hc
          simp only [compile_latex, render_and_save, if_pos rfl] at h
          cases produced with
          | true => rfl
          | false => simp [artifact_exists] at h
        · simp only [compile_latex, render_and_save, if_neg hc] at h
          simp at h
    | null => simp at h
    | bool b => simp at h
    | num n => simp at h
    | str s => simp at h
    | arr xs => simp at h

/-- Witness for C9 (amended) at a successful compile that produced the
artifact. -/
theorem download_implies_artifact_witness :
    artifact_exists (.runs 0 true "") = true :=
  download_implies_artifact "\x7b\"a\": \"b\"\x7d" "P" [] (.runs 0 true "")
    [] "build/resume.pdf" rfl

/-- C10: compile_latex mutates the caller-supplied record in place --
after the call the photo_path key holds the given photo filename --
and every other key of the record is unchanged. -/
theorem compile_latex_mutates_only_photo_path (tmpl : List Tok)
    (cenv : CompilerEnv) (data : Dict) (p : String) (fs : FS) (k : String)
    (h : k ≠ "photo_path") :
    getKey (compile_latex tmpl cenv data p fs).data "photo_path"
      = some (Json.str p) ∧
    getKey (compile_latex tmpl cenv data p fs).data k = getKey data k := by
  have hdata : (compile_latex tmpl cenv data p fs).data
      = setKey data "photo_path" (Json.str p) := by
    cases cenv with
    | toolMissing => rfl
    | runs code produced out =>
      dsimp only [compile_latex, render_and_save, compile_latex_data_update]
      by_cases hc : code = 0
      · rw [if_pos hc]
      · rw [if_neg hc]
  rw [hdata]
  exact ⟨getKey_setKey_same data "photo_path" (Json.str p),
    getKey_setKey_ne data "photo_path" k (Json.str p) h⟩

/-- Witness for C10 at a one-field record and the name key. -/
theorem compile_latex_mutates_only_photo_path_witness :
    ("name" : String) ≠ "photo_path" ∧
    (getKey (compile_latex [] (.runs 0 true "") [("name", Json.str "Jane")]
        "user_photo.jpg" []).data "photo_path"
      = some (Json.str "user_photo.jpg") ∧
     getKey (compile_latex [] (.runs 0 true "") [("name", Json.str "Jane")]
        "user_photo.jpg" []).data "name"
      = getKey [("name", Json.str "Jane")] "name") :=
  ⟨by decide, compile_latex_mutates_only_photo_path [] (.runs 0 true "")
    [("name", Json.str "Jane")] "user_photo.jpg" [] "name" (by decide)⟩
